import Mathlib

/-!
Shallow embedding of `src/DWA_6/src/main.js` (a book-catalog browser:
search-form filtering, pagination counter, and DOM list rendering),
together with theorems settling the specification claims about it.

The file is organised as: JavaScript string primitives, the catalog data
model, the filter of `handleSearchFormSubmit` (lines 141-153), the
remaining-count computation and DOM update of `updateBookList`
(lines 176-244), and the state-level form-submission handler.
-/

/-! ## JavaScript string primitives -/

/-- Prefix test: `charsStartsWith s sub` holds when `sub` is a prefix of `s`
(character-by-character, as JavaScript string indexing sees it). -/
def charsStartsWith : List Char → List Char → Bool
  | _, [] => true
  | [], _ :: _ => false
  | c :: cs, d :: ds => c == d && charsStartsWith cs ds

/-- Containment test: `charsContains s sub` holds when `sub` occurs
contiguously somewhere in `s`, the semantics of JavaScript `includes`. -/
def charsContains : List Char → List Char → Bool
  | [], sub => charsStartsWith [] sub
  | c :: t, sub => charsStartsWith (c :: t) sub || charsContains t sub

/-- JavaScript `s.includes(sub)` on the underlying character sequences. -/
def jsIncludes (s sub : String) : Bool :=
  charsContains s.data sub.data

/-- JavaScript `toLowerCase` (per-character case mapping over the sequence). -/
def jsLower (s : String) : String :=
  ⟨s.data.map Char.toLower⟩

/-- JavaScript `trim`: strip leading and trailing whitespace characters. -/
def jsTrim (s : String) : String :=
  ⟨((s.data.dropWhile Char.isWhitespace).reverse.dropWhile Char.isWhitespace).reverse⟩

/-! ## Data model (`data.js` record shape as consumed by `main.js`) -/

/-- A catalog record, with the fields destructured by `updateBookList`:
`{ author, id, image, title }` plus the `genres` list used by the filter. -/
structure Book where
  id : String
  title : String
  author : String
  genres : List String
  image : String
deriving DecidableEq, Repr

/-- The three form fields extracted by `Object.fromEntries(formData)`
in the normal case where each field submits a string. -/
structure Filters where
  title : String
  author : String
  genre : String
deriving DecidableEq, Repr

/-! ## The filter of `handleSearchFormSubmit` (main.js lines 141-153) -/

/-- Line 142: `filters.title.trim() === '' ||
book.title.toLowerCase().includes(filters.title.toLowerCase())`.
Note the substring operand is the untrimmed query. -/
def titleMatch (q title : String) : Bool :=
  jsTrim q == "" || jsIncludes (jsLower title) (jsLower q)

/-- Line 147: `authorId === 'any' || book.author === authorId`. -/
def authorMatch (a bookAuthor : String) : Bool :=
  a == "any" || bookAuthor == a

/-- Line 148: `genre === 'any' || book.genres.includes(genre)`. -/
def genreMatch (g : String) (genres : List String) : Bool :=
  g == "any" || genres.contains g

/-- Line 150: the conjunction `titleMatch && authorMatch && genreMatch`. -/
def includeBook (f : Filters) (b : Book) : Bool :=
  titleMatch f.title b.title && authorMatch f.author b.author &&
    genreMatch f.genre b.genres

/-- Lines 138-153: the loop `for (const book of books) { ... results.push(book) }`
accumulating the matching records in catalog order. -/
def handleSearchResults (books : List Book) (f : Filters) : List Book :=
  books.foldl (fun results b => if includeBook f b then results ++ [b] else results) []

/-! ## Remaining-count computation (main.js lines 184-186) -/

/-- Lines 184-186: `remainingBooks = results.length - (page * BOOKS_PER_PAGE)`,
`hasRemaining = remainingBooks > 0`, `remaining = hasRemaining ? remainingBooks : 0`. -/
def computeRemaining (resultSetLength pageIndex pageSize : Int) : Int :=
  let remainingBooks := resultSetLength - pageIndex * pageSize
  let hasRemaining : Bool := remainingBooks > 0
  if hasRemaining then remainingBooks else 0

/-! ## Basic list lemmas about the push-accumulating loops -/

theorem foldl_filter_push {α : Type} (p : α → Bool) :
    ∀ (l acc : List α),
      l.foldl (fun results b => if p b then results ++ [b] else results) acc =
        acc ++ l.filter p := by
  intro l
  induction l with
  | nil => intro acc; simp
  | cons b t ih =>
    intro acc
    by_cases h : p b
    · simp [List.foldl_cons, h, ih, List.filter_cons]
    · simp [List.foldl_cons, h, ih, List.filter_cons]

theorem foldl_map_push {α β : Type} (f : α → β) :
    ∀ (l : List α) (acc : List β),
      l.foldl (fun r a => r ++ [f a]) acc = acc ++ l.map f := by
  intro l
  induction l with
  | nil => intro acc; simp
  | cons b t ih => intro acc; simp [List.foldl_cons, ih]

theorem handleSearchResults_eq_filter (books : List Book) (f : Filters) :
    handleSearchResults books f = books.filter (includeBook f) := by
  simpa using foldl_filter_push (includeBook f) books []

/-! ## Claim C3 -/

/-- C3: for every result-set length, page index, and page size, the computed
remaining count equals `max 0 (resultSetLength - pageIndex*pageSize)`; the
computation is total, negative intermediate values clamp to 0. -/
theorem C3_computeRemaining_eq_max (resultSetLength pageIndex pageSize : Int) :
    computeRemaining resultSetLength pageIndex pageSize =
      max 0 (resultSetLength - pageIndex * pageSize) := by
  simp only [computeRemaining]
  split
  · next h =>
    simp only [decide_eq_true_eq] at h
    omega
  · next h =>
    simp only [decide_eq_true_eq] at h
    omega

/-! ## DOM rendering model for `updateBookList` (main.js lines 176-244) -/

/-- The author table of `data.js` as an association list
(JavaScript object `authors[authorId]` lookup). -/
def lookupAuthor (tbl : List (String × String)) (id : String) : Option String :=
  (tbl.find? (fun p => p.1 == id)).map (fun p => p.2)

/-- One rendered preview button (lines 205-220): the `data-preview`
attribute and the interpolated image, title and author fields. A lookup of a
missing author id yields JavaScript `undefined`, which the template literal
stringifies to the text `undefined`. -/
structure Preview where
  dataPreview : String
  image : String
  title : String
  authorText : String
deriving DecidableEq, Repr

/-- Lines 206-219: build one preview element for a book record. -/
def mkPreview (tbl : List (String × String)) (b : Book) : Preview :=
  { dataPreview := b.id
    image := b.image
    title := b.title
    authorText := (lookupAuthor tbl b.author).getD "undefined" }

/-- Lines 202-220: `for (const book of results) { ... fragment.appendChild(element) }`,
appending one preview per result record into the document fragment. -/
def buildFragment (tbl : List (String × String)) (results : List Book) : List Preview :=
  results.foldl (fun frag b => frag ++ [mkPreview tbl b]) []

/-- Lines 195-198: the `Show more` button markup embedding the remaining count. -/
def showMoreLabel (remaining : Int) : String :=
  "<span>Show more</span><span class=\"list__remaining\">(" ++ toString remaining ++ ")</span>"

/-- Presence (and, for the list container, current contents) of the four
DOM mounting points queried at lines 178-181. -/
structure DomEnv where
  listItems : Option (List Preview)
  listButton : Bool
  searchOverlay : Bool
  listMessage : Bool
deriving DecidableEq, Repr

/-- The DOM writes performed by one `updateBookList` call: `none` in a field
means the corresponding element was absent, so no write happened there. -/
structure DomOut where
  listItems : Option (List Preview)
  buttonDisabled : Option Bool
  buttonLabel : Option String
  buttonDisplay : Option String
  messageDisplay : Option String
  overlayOpen : Option Bool
  logs : List String
  scrolled : Bool
deriving DecidableEq, Repr

/-- Lines 176-244, in source order. The second component records whether the
call ran to completion: when `[data-list-items]` is absent, line 223
(`dataListItems.innerHTML = ''`) throws a TypeError, after the button
disabled/label writes but before the message, scroll and overlay steps.
No step logs anything, so `logs` is always empty. -/
def updateBookList (env : DomEnv) (tbl : List (String × String))
    (results : List Book) (page pageSize : Int) : DomOut × Bool :=
  let remainingBooks : Int := (results.length : Int) - page * pageSize
  let hasRemaining : Bool := remainingBooks > 0
  let remaining : Int := if hasRemaining then remainingBooks else 0
  let buttonDisabled : Option Bool := if env.listButton then some (!hasRemaining) else none
  let buttonLabel : Option String := if env.listButton then some (showMoreLabel remaining) else none
  let fragment := buildFragment tbl results
  match env.listItems with
  | none =>
    ({ listItems := none
       buttonDisabled := buttonDisabled
       buttonLabel := buttonLabel
       buttonDisplay := none
       messageDisplay := none
       overlayOpen := none
       logs := []
       scrolled := false }, false)
  | some _ =>
    let messageDisplayFirst : Option String :=
      if env.listMessage then some (if results.length == 0 then "block" else "none") else none
    let buttonDisplay : Option String :=
      if env.listButton && env.listMessage then
        some (if results.length > 0 then "block" else "none")
      else none
    let messageDisplay : Option String :=
      if env.listButton && env.listMessage then
        some (if results.length == 0 then "block" else "none")
      else messageDisplayFirst
    let overlayOpen : Option Bool := if env.searchOverlay then some false else none
    ({ listItems := some fragment
       buttonDisabled := buttonDisabled
       buttonLabel := buttonLabel
       buttonDisplay := buttonDisplay
       messageDisplay := messageDisplay
       overlayOpen := overlayOpen
       logs := []
       scrolled := true }, true)

/-! ## State-level form-submission handler (main.js lines 126-168) -/

/-- The module-level data read by the handler: the catalog and author table of
`data.js` and the `page` counter imported from `bookList.js`. -/
structure AppState where
  books : List Book
  authors : List (String × String)
  page : Int
deriving DecidableEq, Repr

/-- Lines 126-168: `handleSearchFormSubmit` filters the catalog, calls
`updateBookList` (which reads the imported `page` counter), and finally
re-enables the cancel/submit buttons when both are present (and the
`updateBookList` call did not throw). The handler contains no assignment
to `books`, `authors` or `page`, so the state is returned unchanged. -/
def handleSearchSubmitState (st : AppState) (f : Filters) (env : DomEnv)
    (pageSize : Int) (searchButtonsPresent : Bool) :
    AppState × (DomOut × Bool) × Bool :=
  let results := handleSearchResults st.books f
  let dom := updateBookList env st.authors results st.page pageSize
  (st, dom, dom.2 && searchButtonsPresent)

/-- Modelled from the spec: `bookList.js` is not under `src/`; per §4.2 the
View Synchronizer's load-more action increments `currentPageIndex` by 1. -/
def onLoadMoreClickPage (page : Int) : Int :=
  page + 1

/-! ## Submitted criteria with possibly-absent fields (for robustness claims) -/

/-- Submitted criteria as seen by the filter when a field may be absent:
an absent field reads as JavaScript `undefined` (`none`). -/
structure SubmittedFilters where
  title : Option String
  author : Option String
  genre : Option String
deriving DecidableEq, Repr

/-- Line 142 with a possibly-absent title: `filters.title.trim()` throws a
TypeError (`none`) when the field is absent; otherwise the usual match. -/
def titleMatchOpt (q : Option String) (title : String) : Option Bool :=
  match q with
  | none => none
  | some s => some (titleMatch s title)

/-- Line 147 with a possibly-absent author: `undefined === 'any'` is false and
`book.author === undefined` is false, so an absent field matches no book. -/
def authorMatchOpt (a : Option String) (bookAuthor : String) : Bool :=
  match a with
  | none => false
  | some s => authorMatch s bookAuthor

/-- Line 148 with a possibly-absent genre: `undefined === 'any'` is false and
a string array never `includes` `undefined`, so an absent field matches no book. -/
def genreMatchOpt (g : Option String) (genres : List String) : Bool :=
  match g with
  | none => false
  | some s => genreMatch s genres

/-- Lines 141-153 over possibly-absent fields: the loop evaluates the title
line first for each book, so an absent title throws on the first iteration
(`none`); an empty catalog never enters the loop body. -/
def searchResultsOpt (books : List Book) (f : SubmittedFilters) : Option (List Book) :=
  match books with
  | [] => some []
  | b :: rest =>
    match titleMatchOpt f.title b.title with
    | none => none
    | some tm =>
      let keep := tm && authorMatchOpt f.author b.author && genreMatchOpt f.genre b.genres
      match searchResultsOpt rest f with
      | none => none
      | some rs => some (if keep then b :: rs else rs)

/-! ## Concrete catalog fixtures used by the counterexamples and witnesses -/

def bkPlain : Book := ⟨"b1", "x", "a1", ["g1"], "img1"⟩

def bkWar : Book := ⟨"b2", "War and Peace", "a2", ["g2"], "img2"⟩

def bkGhost : Book := ⟨"b3", "Ghost", "zz", ["g1"], "img3"⟩

def tblA : List (String × String) := [("a1", "Author One"), ("a2", "Author Two")]

def envFull : DomEnv := ⟨some [], true, true, true⟩

def envNoList : DomEnv := ⟨none, true, true, true⟩

/-! ## Claim C1 -/

/-- The claim's title predicate as written for C1: the query is empty, or is a
case-insensitive substring of the book's title. -/
def titleMatchClaimC1 (q title : String) : Bool :=
  q == "" || jsIncludes (jsLower title) (jsLower q)

/-- C1 as stated is false: with the whitespace-only query `" "` the code
includes `bkPlain` (its trim is empty), yet the claim's title predicate
rejects it (`" "` is neither empty nor a substring of `"x"`). -/
theorem C1_counterexample :
    bkPlain ∈ handleSearchResults [bkPlain] ⟨" ", "any", "any"⟩ ∧
      titleMatchClaimC1 " " bkPlain.title = false := by
  exact ⟨by decide, by decide⟩

/-- C1 amended: the result set contains exactly the books passing the three
predicates (title: empty after trimming, or the untrimmed query a
case-insensitive substring of the title; author: `any` sentinel or exact id
equality; genre: `any` sentinel or containment), and it preserves catalog
order (it is a sublist of the catalog, no re-sorting). -/
theorem C1_and_of_three_predicates (books : List Book) (f : Filters) :
    (∀ b : Book, b ∈ handleSearchResults books f ↔
      b ∈ books ∧ titleMatch f.title b.title = true ∧
        authorMatch f.author b.author = true ∧ genreMatch f.genre b.genres = true) ∧
    List.Sublist (handleSearchResults books f) books := by
  constructor
  · intro b
    rw [handleSearchResults_eq_filter, List.mem_filter]
    simp [includeBook, Bool.and_eq_true, and_assoc]
  · rw [handleSearchResults_eq_filter]
    exact List.filter_sublist books

/-! ## Claim C5 -/

/-- The claim's title predicate as written for C5: empty after trimming
matches all, otherwise the substring test uses the trimmed query. -/
def titleMatchTrimmedClaim (q title : String) : Bool :=
  jsTrim q == "" || jsIncludes (jsLower title) (jsLower (jsTrim q))

/-- C5 as stated is false: for the query `" war "` the code's substring test
uses the untrimmed query and rejects `"War and Peace"`, while the claim's
trimmed test accepts it; the result sets for `" war "` and its trim differ. -/
theorem C5_counterexample :
    titleMatch " war " "War and Peace" = false ∧
      titleMatchTrimmedClaim " war " "War and Peace" = true ∧
      handleSearchResults [bkWar] ⟨" war ", "any", "any"⟩ = [] ∧
      handleSearchResults [bkWar] ⟨jsTrim " war ", "any", "any"⟩ = [bkWar] := by
  exact ⟨by decide, by decide, by decide, by decide⟩

/-- C5 amended: only the emptiness test trims — a query that is empty after
trimming matches every book, while for any other query the match is a
case-insensitive substring test of the untrimmed query against the title
(so surrounding whitespace can change the result set). -/
theorem C5_trim_only_for_emptiness (books : List Book) (q : String) :
    (jsTrim q = "" → handleSearchResults books ⟨q, "any", "any"⟩ = books) ∧
    (jsTrim q ≠ "" → ∀ b : Book, b ∈ handleSearchResults books ⟨q, "any", "any"⟩ ↔
      b ∈ books ∧ jsIncludes (jsLower b.title) (jsLower q) = true) := by
  constructor
  · intro h
    rw [handleSearchResults_eq_filter]
    apply List.filter_eq_self.mpr
    intro b _
    simp [includeBook, titleMatch, authorMatch, genreMatch, h]
  · intro h b
    rw [handleSearchResults_eq_filter, List.mem_filter]
    simp [includeBook, titleMatch, authorMatch, genreMatch, h]

/-- Witness for C5: instantiates both parts at concrete inputs. -/
theorem C5_trim_only_for_emptiness_witness :
    (handleSearchResults [bkPlain] ⟨" ", "any", "any"⟩ = [bkPlain]) ∧
      (bkWar ∈ handleSearchResults [bkWar] ⟨" war ", "any", "any"⟩ ↔
        bkWar ∈ [bkWar] ∧ jsIncludes (jsLower bkWar.title) (jsLower " war ") = true) :=
  ⟨(C5_trim_only_for_emptiness [bkPlain] " ").1 (by decide),
    (C5_trim_only_for_emptiness [bkWar] " war ").2 (by decide) bkWar⟩

/-! ## Claim C2 -/

/-- C2 as stated is false: starting from page counter 3, a search submission
leaves it at 3 — nothing in the handler resets it to 1. -/
theorem C2_counterexample :
    (handleSearchSubmitState ⟨[bkPlain], tblA, 3⟩ ⟨"", "any", "any"⟩
        envFull 36 true).1.page = 3 ∧ (3 : Int) ≠ 1 := by
  exact ⟨rfl, by decide⟩

/-- C2 amended: a search submission leaves the page counter unchanged (the
handler never resets it to 1); the load-more action (modelled from the spec)
increments it, so the counter is never decremented. -/
theorem C2_page_unchanged_by_search (st : AppState) (f : Filters) (env : DomEnv)
    (pageSize : Int) (btns : Bool) :
    (handleSearchSubmitState st f env pageSize btns).1.page = st.page ∧
      st.page ≤ onLoadMoreClickPage st.page := by
  refine ⟨rfl, ?_⟩
  simp only [onLoadMoreClickPage]
  omega

/-! ## Claim C10 -/

/-- C10: the handler leaves the whole catalog state (books, author table,
page counter) unchanged, and the produced result list is a subsequence of the
books list — the same records, in catalog order, nothing synthesized. -/
theorem C10_frame_and_subsequence (st : AppState) (f : Filters) (env : DomEnv)
    (pageSize : Int) (btns : Bool) :
    (handleSearchSubmitState st f env pageSize btns).1 = st ∧
      List.Sublist (handleSearchResults st.books f) st.books := by
  refine ⟨rfl, ?_⟩
  rw [handleSearchResults_eq_filter]
  exact List.filter_sublist st.books

/-! ## Lemmas about fragment building and label containment -/

theorem buildFragment_eq_map (tbl : List (String × String)) (results : List Book) :
    buildFragment tbl results = results.map (mkPreview tbl) := by
  simpa [buildFragment] using foldl_map_push (mkPreview tbl) results []

theorem charsStartsWith_nil (s : List Char) : charsStartsWith s [] = true := by
  cases s <;> rfl

theorem charsStartsWith_append (x r : List Char) :
    charsStartsWith (x ++ r) x = true := by
  induction x with
  | nil => exact charsStartsWith_nil r
  | cons c cs ih => simp [charsStartsWith, ih]

theorem charsContains_of_startsWith (s x : List Char)
    (h : charsStartsWith s x = true) : charsContains s x = true := by
  cases s with
  | nil => simpa [charsContains] using h
  | cons c t => simp [charsContains, h]

theorem charsContains_append_middle (pre x suf : List Char) :
    charsContains (pre ++ (x ++ suf)) x = true := by
  induction pre with
  | nil => exact charsContains_of_startsWith _ _ (by simpa using charsStartsWith_append x suf)
  | cons c t ih => simp [charsContains, ih]

theorem jsIncludes_append_middle (a x b : String) :
    jsIncludes (a ++ x ++ b) x = true := by
  have h : (a ++ x ++ b).data = a.data ++ (x.data ++ b.data) := by
    simp [String.data_append]
  simp only [jsIncludes, h]
  exact charsContains_append_middle a.data x.data b.data

theorem showMoreLabel_embeds_count (remaining : Int) :
    jsIncludes (showMoreLabel remaining) (toString remaining) = true := by
  simpa [showMoreLabel] using
    jsIncludes_append_middle "<span>Show more</span><span class=\"list__remaining\">("
      (toString remaining) ")</span>"

/-! ## Claim C4 -/

/-- C4 as stated is false: with page index 1 and page size 1, a two-record
result set is rendered in full — two previews, not the one-element slice
`resultSet[0 .. 1)` that the claim prescribes. -/
theorem C4_counterexample :
    (updateBookList envFull tblA [bkPlain, bkWar] 1 1).1.listItems ≠
      some ((([bkPlain, bkWar]).take (1 * 1)).map (mkPreview tblA)) := by
  decide

/-- C4 amended: REPLACE rendering clears the previously rendered list (the
new contents are independent of the old) and renders the entire result set,
one preview per record, with no pagination bound applied. -/
theorem C4_replace_renders_all (env : DomEnv) (old : List Preview)
    (tbl : List (String × String)) (results : List Book) (page pageSize : Int)
    (h : env.listItems = some old) :
    (updateBookList env tbl results page pageSize).1.listItems =
      some (results.map (mkPreview tbl)) := by
  simp only [updateBookList, h, buildFragment_eq_map]

/-- Witness for C4: the amended theorem applied at a concrete input. -/
theorem C4_replace_renders_all_witness :
    (updateBookList envFull tblA [bkPlain, bkWar] 1 1).1.listItems =
      some ([bkPlain, bkWar].map (mkPreview tblA)) :=
  C4_replace_renders_all envFull [] tblA [bkPlain, bkWar] 1 1 rfl

/-! ## Claim C7 -/

/-- C7 as stated is false: with the list container `[data-list-items]`
absent (and every other mounting point present), the update throws instead
of degrading to a no-op — the call does not run to completion. -/
theorem C7_counterexample :
    (updateBookList envNoList tblA [bkPlain] 1 36).2 = false := by
  decide

/-- C7 amended: the update runs to completion exactly when the list container
is present; a missing show-more button, overlay, or message element degrades
to a no-op for that element, but a missing list container throws. -/
theorem C7_crash_iff_container_absent (env : DomEnv)
    (tbl : List (String × String)) (results : List Book) (page pageSize : Int) :
    (updateBookList env tbl results page pageSize).2 = env.listItems.isSome ∧
    (env.listButton = false →
      (updateBookList env tbl results page pageSize).1.buttonDisabled = none ∧
      (updateBookList env tbl results page pageSize).1.buttonLabel = none ∧
      (updateBookList env tbl results page pageSize).1.buttonDisplay = none) ∧
    (env.searchOverlay = false →
      (updateBookList env tbl results page pageSize).1.overlayOpen = none) ∧
    (env.listMessage = false →
      (updateBookList env tbl results page pageSize).1.messageDisplay = none) := by
  obtain ⟨li, lb, so, lm⟩ := env
  cases li <;> cases lb <;> cases so <;> cases lm <;>
    simp [updateBookList]

/-- Witness for C7: the amended theorem applied at a concrete environment
with only the list container present. -/
theorem C7_crash_iff_container_absent_witness :
    (updateBookList ⟨some [], false, false, false⟩ tblA [] 1 1).2 = true ∧
      (updateBookList ⟨some [], false, false, false⟩ tblA [] 1 1).1.buttonDisabled = none ∧
      (updateBookList ⟨some [], false, false, false⟩ tblA [] 1 1).1.buttonLabel = none ∧
      (updateBookList ⟨some [], false, false, false⟩ tblA [] 1 1).1.overlayOpen = none ∧
      (updateBookList ⟨some [], false, false, false⟩ tblA [] 1 1).1.messageDisplay = none := by
  have h := C7_crash_iff_container_absent ⟨some [], false, false, false⟩ tblA [] 1 1
  exact ⟨h.1, (h.2.1 rfl).1, (h.2.1 rfl).2.1, h.2.2.1 rfl, h.2.2.2 rfl⟩

/-! ## Claim C8 -/

theorem computeRemaining_eq_zero_iff (len p s : Int) :
    computeRemaining len p s = 0 ↔ len - p * s ≤ 0 := by
  simp only [computeRemaining]
  split
  · next h => simp only [decide_eq_true_eq] at h; omega
  · next h => simp only [decide_eq_true_eq] at h; omega

theorem updateBookList_full_shape (old : List Preview) (tbl : List (String × String))
    (results : List Book) (page pageSize : Int) :
    updateBookList ⟨some old, true, true, true⟩ tbl results page pageSize =
      ({ listItems := some (buildFragment tbl results)
         buttonDisabled := some (!(decide ((results.length : Int) - page * pageSize > 0)))
         buttonLabel := some (showMoreLabel (computeRemaining (results.length : Int) page pageSize))
         buttonDisplay := some (if results.length > 0 then "block" else "none")
         messageDisplay := some (if results.length == 0 then "block" else "none")
         overlayOpen := some false
         logs := []
         scrolled := true }, true) := rfl

/-- C8: with all mounting points present, the show-more button is disabled
exactly when the (clamped) remaining count is 0, its label is the markup
embedding the remaining count (which occurs in the label text), and the
button is hidden (`display: none`) exactly when the result set is empty. -/
theorem C8_load_more_affordance (old : List Preview) (tbl : List (String × String))
    (results : List Book) (page pageSize : Int) :
    ((updateBookList ⟨some old, true, true, true⟩ tbl results page pageSize).1.buttonDisabled =
        some true ↔ computeRemaining (results.length : Int) page pageSize = 0) ∧
    (updateBookList ⟨some old, true, true, true⟩ tbl results page pageSize).1.buttonLabel =
      some (showMoreLabel (computeRemaining (results.length : Int) page pageSize)) ∧
    jsIncludes (showMoreLabel (computeRemaining (results.length : Int) page pageSize))
      (toString (computeRemaining (results.length : Int) page pageSize)) = true ∧
    ((updateBookList ⟨some old, true, true, true⟩ tbl results page pageSize).1.buttonDisplay =
        some "none" ↔ results = []) := by
  rw [updateBookList_full_shape]
  refine ⟨?_, rfl, showMoreLabel_embeds_count _, ?_⟩
  · simp only [Option.some.injEq, Bool.not_eq_true', decide_eq_false_iff_not, not_lt]
    rw [computeRemaining_eq_zero_iff]
  · cases results with
    | nil => simp
    | cons b t =>
      simp only [List.length_cons, Option.some.injEq]
      constructor
      · intro h
        rw [if_pos (Nat.succ_pos t.length)] at h
        exact absurd h (by decide)
      · intro h
        exact absurd h (by simp)

/-! ## Claim C9 -/

theorem updateBookList_logs_empty (env : DomEnv) (tbl : List (String × String))
    (results : List Book) (page pageSize : Int) :
    (updateBookList env tbl results page pageSize).1.logs = [] := by
  obtain ⟨li, lb, so, lm⟩ := env
  cases li <;> simp [updateBookList]

/-- C9 as stated is false: `bkGhost` references the author id `zz`, absent
from the table, yet the render produces no log entry and the author field is
the stringified lookup failure `undefined`, not a deliberate placeholder. -/
theorem C9_counterexample :
    lookupAuthor tblA bkGhost.author = none ∧
      (updateBookList envFull tblA [bkGhost] 1 36).1.logs = [] ∧
      (updateBookList envFull tblA [bkGhost] 1 36).1.listItems =
        some [{ dataPreview := "b3", image := "img3", title := "Ghost",
                authorText := "undefined" }] := by
  exact ⟨by decide, by decide, by decide⟩

/-- C9 amended: a missing author id is not reported — the render never logs
anything; the author field gets the literal text `undefined` (the
stringification of the failed lookup); rendering of the remaining previews
still completes, producing one preview per record. -/
theorem C9_missing_author_silent (env : DomEnv) (tbl : List (String × String))
    (results : List Book) (page pageSize : Int) (b : Book)
    (h : lookupAuthor tbl b.author = none) :
    (updateBookList env tbl results page pageSize).1.logs = [] ∧
      (mkPreview tbl b).authorText = "undefined" ∧
      buildFragment tbl results = results.map (mkPreview tbl) := by
  refine ⟨updateBookList_logs_empty env tbl results page pageSize, ?_,
    buildFragment_eq_map tbl results⟩
  simp [mkPreview, h]

/-- Witness for C9: the amended theorem applied at a concrete missing id. -/
theorem C9_missing_author_silent_witness :
    (updateBookList envFull tblA [bkGhost] 1 36).1.logs = [] ∧
      (mkPreview tblA bkGhost).authorText = "undefined" ∧
      buildFragment tblA [bkGhost] = [bkGhost].map (mkPreview tblA) :=
  C9_missing_author_silent envFull tblA [bkGhost] 1 36 bkGhost (by decide)

/-! ## Claim C6 -/

theorem searchResultsOpt_title_some (books : List Book) (t : String)
    (a g : Option String) :
    searchResultsOpt books ⟨some t, a, g⟩ =
      some (books.filter (fun b => titleMatch t b.title &&
        authorMatchOpt a b.author && genreMatchOpt g b.genres)) := by
  induction books with
  | nil => simp [searchResultsOpt]
  | cons b rest ih =>
    simp only [searchResultsOpt, titleMatchOpt, ih, List.filter_cons]

theorem searchResultsOpt_title_none (b : Book) (rest : List Book)
    (a g : Option String) :
    searchResultsOpt (b :: rest) ⟨none, a, g⟩ = none := by
  simp [searchResultsOpt, titleMatchOpt]

/-- C6 as stated is false: submitting criteria with the title field absent
makes filtering fail on a nonempty catalog (a TypeError, not a permissive
default), and an absent author field matches no book rather than all. -/
theorem C6_counterexample :
    searchResultsOpt [bkPlain] ⟨none, some "any", some "any"⟩ = none ∧
      authorMatchOpt none bkPlain.author = false := by
  exact ⟨rfl, rfl⟩

/-- C6 amended: filtering succeeds exactly when the title field is present or
the catalog is empty; with all three fields present it agrees with the normal
filter; an absent author or genre field is not treated as the `any` sentinel —
it matches no book, yielding an empty result set. -/
theorem C6_absent_fields_not_permissive (books : List Book) (f : SubmittedFilters) :
    ((searchResultsOpt books f).isSome ↔ (f.title.isSome ∨ books = [])) ∧
    (∀ t a g, searchResultsOpt books ⟨some t, some a, some g⟩ =
      some (handleSearchResults books ⟨t, a, g⟩)) ∧
    (∀ t g, searchResultsOpt books ⟨some t, none, g⟩ = some []) ∧
    (∀ t a, searchResultsOpt books ⟨some t, a, none⟩ = some []) := by
  refine ⟨?_, ?_, ?_, ?_⟩
  · obtain ⟨ot, oa, og⟩ := f
    cases ot with
    | none =>
      cases books with
      | nil => simp [searchResultsOpt]
      | cons b rest => simp [searchResultsOpt_title_none]
    | some t => simp [searchResultsOpt_title_some]
  · intro t a g
    rw [searchResultsOpt_title_some, handleSearchResults_eq_filter]
    congr 1
  · intro t g
    rw [searchResultsOpt_title_some]
    simp [authorMatchOpt]
  · intro t a
    rw [searchResultsOpt_title_some]
    simp [genreMatchOpt]
